import Mathlib

set_option linter.unusedVariables false

/-! Shallow embedding of `src/weather.py`: the coordinate-resolution and
weather-aggregation pipeline, namely `CoordinateExtractor.get_coordinates`
(lines 65-91), `WeatherByCoordinates.get_weather` / `get_forecast`
(lines 99-138), `get_timezone` (lines 213-228) and the orchestration in
`main` (lines 265-321).  Presentation (Streamlit rendering) is out of
scope; the session history is modelled as an explicit list. -/

/-- An exact decimal number `mant / 10 ^ exp`, the form every numeric
value in scope takes (the code only parses decimal strings and stores the
results; it performs no float arithmetic, so decimals model the floats
exactly). -/
structure DecNum where
  mant : ℤ
  exp : ℕ
deriving DecidableEq, Repr

/-- The rational value of a decimal. -/
def DecNum.toRat (d : DecNum) : ℚ := (d.mant : ℚ) / (10 : ℚ) ^ d.exp

/-- Python values as they flow through the pipeline: strings, numbers
(exact decimals) and dictionaries (association lists, looked up by
string key). -/
inductive PyVal where
  | str : String → PyVal
  | num : DecNum → PyVal
  | dict : List (String × PyVal) → PyVal

/-- Python exceptions that can escape the unprotected statements of `main`
(lines 273-274): `coord_data["lat"]` on a missing key raises KeyError,
`.strip` on a non-string raises AttributeError, `float` on a non-numeric
string raises ValueError. -/
inductive PyExn where
  | keyError : PyExn
  | valueError : PyExn
  | attributeError : PyExn
deriving DecidableEq, Repr

/-- The external services the pipeline can invoke. -/
inductive ExtCall where
  | locationLLM : ExtCall
  | coordLLM : ExtCall
  | weatherAPI : ExtCall
  | forecastAPI : ExtCall
  | timezoneAPI : ExtCall
deriving DecidableEq, Repr

/-- Model of the greedy tail of the regex search: given the characters of
the current line after an opening brace, the span up to the LAST closing
brace on that line, if any.  Python `.` (without DOTALL) matches every
character except a newline, and the Kleene star is greedy, so the match
extends to the last closing brace before the next newline. -/
def greedyToClose (line : List Char) : Option (List Char) :=
  let r := line.reverse.dropWhile (fun c => c ≠ '\x7d')
  if r.isEmpty then none else some r.reverse

/-- Model of the regex search at lines 71 and 81: scan left to right for an
opening brace followed, on the same line, by a closing brace; the match is
greedy, running to the last closing brace on that line.  Returns the
matched span. -/
def reSearchBrace : List Char → Option (List Char)
  | [] => none
  | c :: rest =>
    if c = '\x7b' then
      match greedyToClose (rest.takeWhile (fun x => x ≠ '\n')) with
      | some span => some (c :: span)
      | none => reSearchBrace rest
    else reSearchBrace rest

/-- JSON whitespace. -/
def isWs (c : Char) : Bool := c = ' ' || c = '\t' || c = '\n' || c = '\r'

/-- Drop leading JSON whitespace. -/
def skipWs (cs : List Char) : List Char := cs.dropWhile isWs

/-- Model of JSON string-body parsing (after the opening quote): returns
the decoded characters and the remainder after the closing quote.  Escapes
for quote and backslash are decoded; an unescaped control character or a
dangling backslash is rejected, as `json.loads` rejects them.  (Other JSON
escapes such as unicode escapes are outside the modelled fragment; no
input in scope uses them.) -/
def parseJString : List Char → Option (List Char × List Char)
  | [] => none
  | c :: rest =>
    if c = '"' then some ([], rest)
    else if c = '\\' then
      match rest with
      | [] => none
      | e :: rest2 =>
        if e = '"' || e = '\\' then
          match parseJString rest2 with
          | none => none
          | some p => some (e :: p.1, p.2)
        else none
    else if c.toNat < 32 then none
    else
      match parseJString rest with
      | none => none
      | some p => some (c :: p.1, p.2)

/-- Numeric value of a digit string. -/
def digitsVal (cs : List Char) : ℕ :=
  cs.foldl (fun a c => 10 * a + (c.toNat - 48)) 0

/-- Model of JSON number parsing: optional minus sign, integer digits,
optional fractional digits.  (Exponents are outside the modelled fragment;
no input in scope uses them.) -/
def parseNumber (cs : List Char) : Option (PyVal × List Char) :=
  let su : Bool × List Char :=
    match cs with
    | '-' :: r => (true, r)
    | r => (false, r)
  let ip := su.2.takeWhile Char.isDigit
  let r1 := su.2.dropWhile Char.isDigit
  let signed : ℕ → ℤ := fun n => if su.1 then -(n : ℤ) else (n : ℤ)
  if ip.isEmpty then none
  else
    match r1 with
    | '.' :: rest =>
      let fr := rest.takeWhile Char.isDigit
      let r2 := rest.dropWhile Char.isDigit
      if fr.isEmpty then none
      else some (PyVal.num ⟨signed (digitsVal (ip ++ fr)), fr.length⟩, r2)
    | _ => some (PyVal.num ⟨signed (digitsVal ip), 0⟩, r1)

/-- A JSON value in the flat fragment used by the two LLM schemas:
a string or a number. -/
def parseJVal (cs : List Char) : Option (PyVal × List Char) :=
  match cs with
  | '"' :: rest =>
    match parseJString rest with
    | none => none
    | some p => some (PyVal.str ⟨p.1⟩, p.2)
  | _ => parseNumber cs

/-- The members of a JSON object after the opening brace: key, colon,
value, then a comma and more members or the closing brace.  Fuel bounds
the number of members; it is instantiated with the input length, which a
parse can never exhaust since every member consumes characters. -/
def parseMembers (fuel : ℕ) (cs : List Char) : Option (List (String × PyVal) × List Char) :=
  match fuel with
  | 0 => none
  | fuel + 1 =>
    match skipWs cs with
    | '"' :: rest =>
      match parseJString rest with
      | none => none
      | some kp =>
        match skipWs kp.2 with
        | ':' :: r2 =>
          match parseJVal (skipWs r2) with
          | none => none
          | some vp =>
            match skipWs vp.2 with
            | ',' :: r4 =>
              match parseMembers fuel r4 with
              | none => none
              | some mp => some ((⟨kp.1⟩, vp.1) :: mp.1, mp.2)
            | '\x7d' :: r4 => some ([(⟨kp.1⟩, vp.1)], r4)
            | _ => none
        | _ => none
    | _ => none

/-- A JSON object and the remaining input. -/
def parseObjSpan (cs : List Char) : Option (List (String × PyVal) × List Char) :=
  match skipWs cs with
  | '\x7b' :: rest =>
    match skipWs rest with
    | '\x7d' :: r2 => some ([], r2)
    | _ => parseMembers (rest.length + 1) rest
  | _ => none

/-- Model of `json.loads` on the flat-object fragment produced by the two
LLM prompt schemas: the whole input must be one JSON object (surrounding
whitespace allowed), whose values are strings or numbers. -/
def json_loads (cs : List Char) : Option (List (String × PyVal)) :=
  match parseObjSpan cs with
  | none => none
  | some p => if (skipWs p.2).isEmpty then some p.1 else none

/-- Python `s.strip(c)` for a one-character strip set: removes ALL leading
and trailing occurrences of the character, however many. -/
def pyStripList (cs : List Char) (c : Char) : List Char :=
  ((cs.dropWhile (fun x => x = c)).reverse.dropWhile (fun x => x = c)).reverse

/-- Model of Python `float(s)` on the decimal fragment: optional
surrounding whitespace, optional sign, integer digits and/or a decimal
point with fractional digits.  Returns none where `float` raises
ValueError.  (Exponent, infinity, nan and underscore forms are outside the
modelled fragment; no input in scope uses them.) -/
def pyFloatList (cs : List Char) : Option DecNum :=
  let t := ((cs.dropWhile isWs).reverse.dropWhile isWs).reverse
  let su : Bool × List Char :=
    match t with
    | '-' :: r => (true, r)
    | '+' :: r => (false, r)
    | r => (false, r)
  let ip := su.2.takeWhile Char.isDigit
  let r1 := su.2.dropWhile Char.isDigit
  let signed : ℕ → ℤ := fun n => if su.1 then -(n : ℤ) else (n : ℤ)
  match r1 with
  | [] =>
    if ip.isEmpty then none else some ⟨signed (digitsVal ip), 0⟩
  | '.' :: fr =>
    if fr.all Char.isDigit && !(ip.isEmpty && fr.isEmpty) then
      some ⟨signed (digitsVal (ip ++ fr)), fr.length⟩
    else none
  | _ => none

/-- The external world for one run of the pipeline: the two LLM reply
texts and the decoded outcome of each HTTP call.  An `Except.error`
models a network/HTTP failure (a RequestException, which for the weather
calls also covers the response-decoding failures that the code folds into
the same handler); an `Except.ok` carries the decoded JSON object. -/
structure Env where
  locationResponse : String
  coordResponse : String
  weatherResponse : Except String (List (String × PyVal))
  forecastResponse : Except String (List (String × PyVal))
  timezoneResponse : Except String (List (String × PyVal))

/-- Lines 68-75 of `get_coordinates`: the location-resolution half.
The regex span of the LLM reply is JSON-decoded and its `location` field
read.  A missing span yields the error of line 88; a decode failure or a
missing key raises inside the `try` and is converted by the handler of
lines 90-91. -/
def extractLocationList (content : List Char) : Except String PyVal :=
  match reSearchBrace content with
  | none => Except.error "No JSON found in location response"
  | some span =>
    match json_loads span with
    | none => Except.error "Failed to extract coordinates: JSONDecodeError"
    | some obj =>
      match obj.lookup "location" with
      | none => Except.error "Failed to extract coordinates: KeyError"
      | some v => Except.ok v

/-- The location-resolution step on the raw LLM reply string. -/
def extract_location (content : String) : Except String PyVal :=
  extractLocationList content.toList

/-- Lines 78-86 of `get_coordinates`: the coordinate half.  On success the
decoded JSON object itself is returned; failures become an error
dictionary (line 86, or the handler of lines 90-91 for a decode error). -/
def extractCoordsList (content : List Char) : List (String × PyVal) :=
  match reSearchBrace content with
  | none => [("error", PyVal.str "No JSON found in coordinate response")]
  | some span =>
    match json_loads span with
    | none => [("error", PyVal.str "Failed to extract coordinates: JSONDecodeError")]
    | some obj => obj

/-- `CoordinateExtractor.get_coordinates` (lines 65-91): invoke the
location LLM; on successful location extraction invoke the coordinate LLM
and return its decoded JSON object.  Every failure is returned as a
dictionary with an `error` key; the function itself never raises.  The
second component records which LLM services were invoked. -/
def get_coordinates (env : Env) : List (String × PyVal) × List ExtCall :=
  match extractLocationList env.locationResponse.toList with
  | Except.error msg => ([("error", PyVal.str msg)], [ExtCall.locationLLM])
  | Except.ok _ =>
    (extractCoordsList env.coordResponse.toList, [ExtCall.locationLLM, ExtCall.coordLLM])

/-- `WeatherByCoordinates.get_weather` (lines 99-119): returns the decoded
provider JSON on success and an error dictionary on a request failure. -/
def get_weather (env : Env) : List (String × PyVal) :=
  match env.weatherResponse with
  | Except.error e => [("error", PyVal.str ("Error fetching weather data: " ++ e))]
  | Except.ok j => j

/-- `WeatherByCoordinates.get_forecast` (lines 121-138): same shape as
`get_weather` against the forecast endpoint. -/
def get_forecast (env : Env) : List (String × PyVal) :=
  match env.forecastResponse with
  | Except.error e => [("error", PyVal.str ("Error fetching forecast data: " ++ e))]
  | Except.ok j => j

/-- `get_timezone` (lines 213-228): returns the `zoneName` field of the
provider JSON; on a request failure, a decode failure or a missing field
the exception is caught and `None` is returned (an error is displayed,
nothing propagates). -/
def get_timezone (env : Env) : Option PyVal :=
  match env.timezoneResponse with
  | Except.error _ => none
  | Except.ok j =>
    match j.lookup "zoneName" with
    | none => none
    | some v => some v

/-- Python truthiness for the values in scope: `None` is handled at the
call sites; an empty string, zero and an empty dictionary are falsy. -/
def pyFalsy : PyVal → Bool
  | PyVal.str s => s.isEmpty
  | PyVal.num q => q.mant == 0
  | PyVal.dict d => d.isEmpty

/-- Lines 289-291 of `main`: the pipeline's timezone-resolution step.
`timezone_str = get_timezone(lat, lon)`, then `if not timezone_str:
timezone_str = 'UTC'`, so a `None` (any failure inside `get_timezone`)
or falsy value is replaced by the default `"UTC"`. -/
def resolve_timezone (env : Env) : PyVal :=
  match get_timezone env with
  | none => PyVal.str "UTC"
  | some v => if pyFalsy v then PyVal.str "UTC" else v

/-- One History record. -/
abbrev HRecord := List (String × PyVal)

/-- Lines 273-274 of `main`: `float(coord_data[field].strip('"'))`.
These statements sit outside every exception handler, so each failure
mode raises: a missing field raises KeyError, a non-string value has no
`.strip` and raises AttributeError, a non-numeric string raises
ValueError in `float`. -/
def parseCoordField : Option PyVal → Except PyExn DecNum
  | none => Except.error PyExn.keyError
  | some (PyVal.num _) => Except.error PyExn.attributeError
  | some (PyVal.dict _) => Except.error PyExn.attributeError
  | some (PyVal.str s) =>
    match pyFloatList (pyStripList s.toList '"') with
    | none => Except.error PyExn.valueError
    | some q => Except.ok q

/-- Lines 294-299 of `main`: the record appended to the session history.
It carries exactly the question, the current-conditions dictionary, the
coordinates and the timezone string; the forecast is never stored. -/
def mkRecord (question : String) (wd : List (String × PyVal)) (lat lon : DecNum)
    (tz : PyVal) : HRecord :=
  [("question", PyVal.str question),
   ("weather_data", PyVal.dict wd),
   ("coordinates", PyVal.dict [("lat", PyVal.num lat), ("lon", PyVal.num lon)]),
   ("timezone", tz)]

/-- The outcome of one run: the new history and the external calls made. -/
structure RunOutcome where
  newHistory : List HRecord
  calls : List ExtCall

/-- The question-handling block of `main` (lines 265-306) for one
submitted question: resolve coordinates, short-circuit on an error
dictionary, convert the lat/lon fields (which can raise, modelled by
`Except.error`), fetch current conditions, short-circuit on an error
dictionary, then fetch the forecast and the timezone (whose failures only
degrade the output) and append the four-field record to the history. -/
def run (question : String) (env : Env) (history : List HRecord) :
    Except PyExn RunOutcome :=
  if question = "" then Except.ok ⟨history, []⟩
  else
    let cres := get_coordinates env
    if ((cres.1.lookup "error").isSome) then Except.ok ⟨history, cres.2⟩
    else
      match parseCoordField (cres.1.lookup "lat") with
      | Except.error e => Except.error e
      | Except.ok lat =>
        match parseCoordField (cres.1.lookup "lon") with
        | Except.error e => Except.error e
        | Except.ok lon =>
          let weather_data := get_weather env
          if ((weather_data.lookup "error").isSome) then
            Except.ok ⟨history, cres.2 ++ [ExtCall.weatherAPI]⟩
          else
            Except.ok ⟨history ++ [mkRecord question weather_data lat lon (resolve_timezone env)],
              cres.2 ++ [ExtCall.weatherAPI, ExtCall.forecastAPI, ExtCall.timezoneAPI]⟩

/-- Lines 312-313 of `main`: `st.session_state.chat_history.clear()`. -/
def clearHistory (history : List HRecord) : List HRecord := []

/-- Line 316 of `main`: the history panel iterates over
`reversed(st.session_state.chat_history)`. -/
def readHistory (history : List HRecord) : List HRecord := history.reverse

/-- Coordinate resolution, as the pipeline performs it, succeeds when
`get_coordinates` returned no error dictionary and both coordinate fields
convert to floats. -/
def coord_resolution_ok (env : Env) : Bool :=
  ((get_coordinates env).1.lookup "error").isNone &&
  (match parseCoordField ((get_coordinates env).1.lookup "lat") with
   | Except.ok _ => true | Except.error _ => false) &&
  (match parseCoordField ((get_coordinates env).1.lookup "lon") with
   | Except.ok _ => true | Except.error _ => false)

/-- The current-conditions fetch succeeds when `get_weather` returned a
dictionary without an `error` key. -/
def weather_fetch_ok (env : Env) : Bool :=
  ((get_weather env).lookup "error").isNone

/-! Concrete environments used to instantiate the theorems. -/

/-- A fully successful interaction: both LLM replies carry the expected
JSON, all three HTTP calls succeed. -/
def envGood : Env :=
  { locationResponse := "\x7b\"location\": \"Paris\"\x7d"
    coordResponse := "\x7b\"lat\": \"48.8566\", \"lon\": \"2.3522\"\x7d"
    weatherResponse := Except.ok [("name", PyVal.str "Paris")]
    forecastResponse := Except.ok [("cod", PyVal.str "200")]
    timezoneResponse := Except.ok [("zoneName", PyVal.str "Europe/Paris")] }

/-- A location LLM reply with no JSON object at all. -/
def envNoJson : Env :=
  { envGood with locationResponse := "I cannot determine a place name." }

/-- A coordinate LLM reply whose lat field is a non-numeric string. -/
def envBadLat : Env :=
  { envGood with coordResponse := "\x7b\"lat\": \"abc\", \"lon\": \"1.0\"\x7d" }

/-- A coordinate LLM reply with an out-of-range latitude. -/
def envOutOfRange : Env :=
  { envGood with
    coordResponse := "\x7b\"lat\": \"1000.0\", \"lon\": \"0.0\"\x7d"
    weatherResponse := Except.ok [("name", PyVal.str "X")]
    forecastResponse := Except.error "net"
    timezoneResponse := Except.error "net" }

/-- Everything succeeds except the forecast fetch. -/
def envForecastFail : Env :=
  { envGood with forecastResponse := Except.error "boom" }

/-- Everything succeeds except the timezone lookup. -/
def envTzFail : Env :=
  { envGood with timezoneResponse := Except.error "net down" }

/-! ## C9: clearing the history -/

/-- C9: after the history-clearing operation (line 313), every subsequent
read of History (the reversed iteration of line 316) returns the empty
sequence, regardless of how many records it held before. -/
theorem clear_history_reads_empty (history : List HRecord) :
    clearHistory history = [] ∧ readHistory (clearHistory history) = [] :=
  ⟨rfl, rfl⟩

/-! ## C4: timezone resolution degrades to UTC -/

/-- C4: on every failure input -- a network/HTTP error, a malformed
response (folded into the error case by the handlers of lines 223-228) or
a response missing the zoneName field -- `get_timezone` returns `None`
rather than propagating an exception, and the pipeline's
timezone-resolution step (lines 289-291) therefore yields the string
"UTC". -/
theorem timezone_defaults_to_utc (env : Env)
    (h : (∃ e, env.timezoneResponse = Except.error e) ∨
         (∃ j, env.timezoneResponse = Except.ok j ∧ j.lookup "zoneName" = none)) :
    get_timezone env = none ∧ resolve_timezone env = PyVal.str "UTC" := by
  rcases h with ⟨e, he⟩ | ⟨j, hj, hz⟩
  · simp [get_timezone, resolve_timezone, he]
  · simp [get_timezone, resolve_timezone, hj, hz]

/-- Witness for C4 at a concrete failing environment. -/
theorem timezone_defaults_to_utc_witness :
    get_timezone envTzFail = none ∧ resolve_timezone envTzFail = PyVal.str "UTC" :=
  timezone_defaults_to_utc envTzFail (Or.inl ⟨"net down", rfl⟩)

/-! ## C8: quote stripping -/

/-- C8 counterexample: the claim says a doubly quoted value retains one
layer of quotes after stripping.  In the code `.strip` with a quote strip
set removes ALL leading and trailing quote characters, so the doubly
quoted lat value parses to the bare number: the coordinate-field
conversion of lines 273-274 yields 40.7128 rather than retaining a quote
layer (on which `float` would have raised). -/
theorem strip_quotes_counterexample :
    pyStripList "\"\"40.7128\"\"".toList '"' = "40.7128".toList ∧
    pyStripList "\"\"40.7128\"\"".toList '"' ≠ "\"40.7128\"".toList ∧
    parseCoordField (some (PyVal.str "\"\"40.7128\"\"")) = Except.ok ⟨407128, 4⟩ ∧
    parseCoordField (some (PyVal.str "\"40.7128\"")) = Except.ok ⟨407128, 4⟩ := by
  refine ⟨rfl, ?_, rfl, rfl⟩
  decide

/-- If a list's first element fails the predicate, dropWhile keeps it
whole. -/
theorem dropWhile_eq_self_of_head {p : Char → Bool} {l : List Char}
    (h : ∀ c, l.head? = some c → p c = false) : l.dropWhile p = l := by
  cases l with
  | nil => rfl
  | cons x xs =>
    have hx := h x rfl
    simp [List.dropWhile_cons, hx]

/-- C8 amended: coordinate parsing strips ALL layers of surrounding quote
characters (Python `str.strip` removes every leading and every trailing
occurrence), not exactly one layer: any number of quote layers around a
core that neither starts nor ends with a quote is removed entirely. -/
theorem strip_removes_all_quote_layers (n m : ℕ) (core : List Char)
    (h1 : core.head? ≠ some '"') (h2 : core.getLast? ≠ some '"') :
    pyStripList (List.replicate n '"' ++ core ++ List.replicate m '"') '"' = core := by
  have hrep : ∀ k : ℕ, ∀ c ∈ List.replicate k '"', decide (c = '"') = true := by
    intro k c hc
    obtain rfl := List.eq_of_mem_replicate hc
    decide
  cases core with
  | nil =>
    unfold pyStripList
    rw [List.append_nil, ← List.replicate_add, List.dropWhile_replicate]
    simp
  | cons x xs =>
    unfold pyStripList
    rw [List.append_assoc, List.dropWhile_append_of_pos (hrep n)]
    rw [dropWhile_eq_self_of_head (p := fun x => x = '"')
      (l := (x :: xs) ++ List.replicate m '"') ?hhead]
    case hhead =>
      intro c hc
      simp only [List.cons_append, List.head?_cons, Option.some.injEq] at hc
      subst hc
      simp only [List.head?_cons, ne_eq, Option.some.injEq] at h1
      simp [h1]
    rw [List.reverse_append, List.reverse_replicate,
      List.dropWhile_append_of_pos (hrep m)]
    rw [dropWhile_eq_self_of_head (p := fun x => x = '"')
      (l := (x :: xs).reverse) ?htail]
    case htail =>
      intro c hc
      rw [List.head?_reverse] at hc
      rw [hc] at h2
      simp only [ne_eq, Option.some.injEq] at h2
      simp [h2]
    exact List.reverse_reverse (x :: xs)

/-- Witness for the amended C8 at two layers of quotes on each side. -/
theorem strip_removes_all_quote_layers_witness :
    pyStripList (List.replicate 2 '"' ++ "40.7128".toList ++ List.replicate 2 '"') '"' =
      "40.7128".toList :=
  strip_removes_all_quote_layers 2 2 "40.7128".toList (by decide) (by decide)

/-! ## C2: no range validation on coordinates -/

/-- C2 counterexample: a coordinate LLM reply with latitude "1000.0"
(outside [-90, 90]) is NOT rejected: `get_coordinates` returns it without
an error key, the field conversion of lines 273-274 accepts it (value
1000 as a rational, strictly above 90), and the pipeline proceeds to call
the weather service and append a record, instead of producing a
CoordinateExtractionError failure. -/
theorem coord_range_counterexample :
    ((get_coordinates envOutOfRange).1.lookup "error") = none ∧
    parseCoordField ((get_coordinates envOutOfRange).1.lookup "lat") =
      Except.ok ⟨10000, 1⟩ ∧
    (DecNum.mk 10000 1).toRat = 1000 ∧ ¬ ((1000 : ℚ) ≤ 90) ∧
    run "What is the weather in Nowhere?" envOutOfRange [] =
      Except.ok ⟨[mkRecord "What is the weather in Nowhere?"
          [("name", PyVal.str "X")] ⟨10000, 1⟩ ⟨0, 1⟩ (PyVal.str "UTC")],
        [ExtCall.locationLLM, ExtCall.coordLLM, ExtCall.weatherAPI,
         ExtCall.forecastAPI, ExtCall.timezoneAPI]⟩ := by
  refine ⟨rfl, rfl, ?_, by norm_num, rfl⟩
  norm_num [DecNum.toRat]

/-- C2 amended: coordinate resolution performs no range validation at
all.  Whenever `get_coordinates` returns a dictionary without an error
key and both fields convert to floats, the pipeline proceeds to invoke
the weather service with those values, whatever their magnitude. -/
theorem coord_no_range_validation (env : Env) (q : String) (hist : List HRecord)
    (la lo : DecNum) (hq : q ≠ "")
    (he : ((get_coordinates env).1.lookup "error") = none)
    (hla : parseCoordField ((get_coordinates env).1.lookup "lat") = Except.ok la)
    (hlo : parseCoordField ((get_coordinates env).1.lookup "lon") = Except.ok lo) :
    ∃ out, run q env hist = Except.ok out ∧ ExtCall.weatherAPI ∈ out.calls := by
  by_cases hw : ((get_weather env).lookup "error").isSome
  · refine ⟨⟨hist, (get_coordinates env).2 ++ [ExtCall.weatherAPI]⟩, ?_, by simp⟩
    simp [run, hq, he, hla, hlo, hw]
  · refine ⟨⟨hist ++ [mkRecord q (get_weather env) la lo (resolve_timezone env)],
      (get_coordinates env).2 ++ [ExtCall.weatherAPI, ExtCall.forecastAPI,
        ExtCall.timezoneAPI]⟩, ?_, by simp⟩
    simp [run, hq, he, hla, hlo, hw]

/-- Witness for the amended C2 at the out-of-range environment. -/
theorem coord_no_range_validation_witness :
    ∃ out, run "q" envOutOfRange [] = Except.ok out ∧
      ExtCall.weatherAPI ∈ out.calls :=
  coord_no_range_validation envOutOfRange "q" [] ⟨10000, 1⟩ ⟨0, 1⟩
    (by decide) rfl rfl rfl

/-! ## C5: short-circuit on coordinate failure -/

/-- `get_coordinates` only ever invokes the two LLM services. -/
theorem get_coordinates_calls (env : Env) :
    (get_coordinates env).2 = [ExtCall.locationLLM] ∨
    (get_coordinates env).2 = [ExtCall.locationLLM, ExtCall.coordLLM] := by
  unfold get_coordinates
  cases extractLocationList env.locationResponse.toList with
  | error msg => exact Or.inl rfl
  | ok v => exact Or.inr rfl

/-- C5: when coordinate resolution returns a Failure (an error
dictionary), the run ends at once (lines 270-271): the history is
unchanged and neither the weather service (current conditions or
forecast) nor the timezone service is ever invoked. -/
theorem coord_failure_short_circuits (env : Env) (q : String) (hist : List HRecord)
    (hq : q ≠ "") (h : ((get_coordinates env).1.lookup "error").isSome) :
    run q env hist = Except.ok ⟨hist, (get_coordinates env).2⟩ ∧
    ExtCall.weatherAPI ∉ (get_coordinates env).2 ∧
    ExtCall.forecastAPI ∉ (get_coordinates env).2 ∧
    ExtCall.timezoneAPI ∉ (get_coordinates env).2 := by
  refine ⟨by simp [run, hq, h], ?_, ?_, ?_⟩ <;>
    rcases get_coordinates_calls env with h2 | h2 <;> rw [h2] <;> decide

/-- Witness for C5: a location reply with no JSON short-circuits. -/
theorem coord_failure_short_circuits_witness :
    run "What is the weather?" envNoJson [] =
      Except.ok ⟨[], (get_coordinates envNoJson).2⟩ ∧
    ExtCall.weatherAPI ∉ (get_coordinates envNoJson).2 ∧
    ExtCall.forecastAPI ∉ (get_coordinates envNoJson).2 ∧
    ExtCall.timezoneAPI ∉ (get_coordinates envNoJson).2 :=
  coord_failure_short_circuits envNoJson "What is the weather?" []
    (by decide) (by decide)

/-! ## C6: forecast failure degrades gracefully -/

/-- C6: when the current-conditions fetch succeeds but the forecast fetch
returns a Failure, the run still appends the record: it carries the
populated current-conditions dictionary, and its forecast entries are
absent (no forecast field exists in a history record at all). -/
theorem forecast_failure_still_appends (env : Env) (q : String)
    (hist : List HRecord) (la lo : DecNum) (hq : q ≠ "")
    (he : ((get_coordinates env).1.lookup "error") = none)
    (hla : parseCoordField ((get_coordinates env).1.lookup "lat") = Except.ok la)
    (hlo : parseCoordField ((get_coordinates env).1.lookup "lon") = Except.ok lo)
    (hw : ((get_weather env).lookup "error") = none)
    (hf : ((get_forecast env).lookup "error").isSome) :
    run q env hist =
      Except.ok ⟨hist ++ [mkRecord q (get_weather env) la lo (resolve_timezone env)],
        (get_coordinates env).2 ++ [ExtCall.weatherAPI, ExtCall.forecastAPI,
          ExtCall.timezoneAPI]⟩ ∧
    (mkRecord q (get_weather env) la lo (resolve_timezone env)).lookup "weather_data" =
      some (PyVal.dict (get_weather env)) ∧
    (mkRecord q (get_weather env) la lo (resolve_timezone env)).lookup "forecast" =
      none := by
  refine ⟨?_, rfl, rfl⟩
  simp [run, hq, he, hla, hlo, hw]

/-- Witness for C6 at a concrete environment whose forecast call fails. -/
theorem forecast_failure_still_appends_witness :
    run "Weather in Paris?" envForecastFail [] =
      Except.ok ⟨[] ++ [mkRecord "Weather in Paris?" (get_weather envForecastFail)
          ⟨488566, 4⟩ ⟨23522, 4⟩ (resolve_timezone envForecastFail)],
        (get_coordinates envForecastFail).2 ++ [ExtCall.weatherAPI,
          ExtCall.forecastAPI, ExtCall.timezoneAPI]⟩ ∧
    (mkRecord "Weather in Paris?" (get_weather envForecastFail)
        ⟨488566, 4⟩ ⟨23522, 4⟩ (resolve_timezone envForecastFail)).lookup "weather_data" =
      some (PyVal.dict (get_weather envForecastFail)) ∧
    (mkRecord "Weather in Paris?" (get_weather envForecastFail)
        ⟨488566, 4⟩ ⟨23522, 4⟩ (resolve_timezone envForecastFail)).lookup "forecast" =
      none :=
  forecast_failure_still_appends envForecastFail "Weather in Paris?" []
    ⟨488566, 4⟩ ⟨23522, 4⟩ (by decide) rfl rfl rfl rfl rfl

/-! ## C10: the shape of a history record -/

/-- C10: every record the run appends to History has exactly the four
fields question, weather_data, coordinates and timezone, in that order;
no forecast field is ever stored, so re-rendering a history entry can
never show a forecast. -/
theorem history_record_fields (q : String) (env : Env) (hist : List HRecord)
    (out : RunOutcome) (r : HRecord)
    (h : run q env hist = Except.ok out) (h2 : out.newHistory = hist ++ [r]) :
    r.map Prod.fst = ["question", "weather_data", "coordinates", "timezone"] ∧
    r.lookup "forecast" = none := by
  by_cases hq : q = ""
  · simp only [run, if_pos hq] at h
    obtain rfl : out = ⟨hist, []⟩ := by injection h with h; exact h.symm
    simp at h2
  · simp only [run, if_neg hq] at h
    by_cases herr : ((get_coordinates env).1.lookup "error").isSome
    · rw [if_pos herr] at h
      obtain rfl : out = ⟨hist, (get_coordinates env).2⟩ := by
        injection h with h; exact h.symm
      simp at h2
    · rw [if_neg herr] at h
      cases hla : parseCoordField ((get_coordinates env).1.lookup "lat") with
      | error e => simp only [hla] at h; cases h
      | ok la =>
        simp only [hla] at h
        cases hlo : parseCoordField ((get_coordinates env).1.lookup "lon") with
        | error e => simp only [hlo] at h; cases h
        | ok lo =>
          simp only [hlo] at h
          by_cases hw : ((get_weather env).lookup "error").isSome
          · rw [if_pos hw] at h
            obtain rfl : out = ⟨hist, (get_coordinates env).2 ++ [ExtCall.weatherAPI]⟩ := by
              injection h with h; exact h.symm
            simp at h2
          · rw [if_neg hw] at h
            obtain rfl : out = ⟨hist ++ [mkRecord q (get_weather env) la lo
                (resolve_timezone env)],
                (get_coordinates env).2 ++ [ExtCall.weatherAPI, ExtCall.forecastAPI,
                  ExtCall.timezoneAPI]⟩ := by
              injection h with h; exact h.symm
            simp only [List.append_cancel_left_eq, List.cons.injEq, and_true] at h2
            subst h2
            exact ⟨rfl, rfl⟩

/-- Witness for C10 at the all-success environment. -/
theorem history_record_fields_witness :
    (mkRecord "Weather in Paris?" (get_weather envGood) ⟨488566, 4⟩ ⟨23522, 4⟩
        (resolve_timezone envGood)).map Prod.fst =
      ["question", "weather_data", "coordinates", "timezone"] ∧
    (mkRecord "Weather in Paris?" (get_weather envGood) ⟨488566, 4⟩ ⟨23522, 4⟩
        (resolve_timezone envGood)).lookup "forecast" = none :=
  history_record_fields "Weather in Paris?" envGood []
    ⟨[] ++ [mkRecord "Weather in Paris?" (get_weather envGood) ⟨488566, 4⟩ ⟨23522, 4⟩
        (resolve_timezone envGood)],
      (get_coordinates envGood).2 ++ [ExtCall.weatherAPI, ExtCall.forecastAPI,
        ExtCall.timezoneAPI]⟩
    (mkRecord "Weather in Paris?" (get_weather envGood) ⟨488566, 4⟩ ⟨23522, 4⟩
      (resolve_timezone envGood))
    rfl rfl

/-! ## C1: the append invariant -/

/-- An auxiliary reading of the Boolean success tests as a match. -/
theorem except_match_true {x : Except PyExn DecNum}
    (h : (match x with | Except.ok _ => true | Except.error _ => false) = true) :
    ∃ b, x = Except.ok b := by
  cases x with
  | ok b => exact ⟨b, rfl⟩
  | error e => cases h

/-- When every step succeeds, the run appends exactly one record. -/
theorem run_append_eq (q : String) (env : Env) (hist : List HRecord)
    (la lo : DecNum) (hq : q ≠ "")
    (he : ((get_coordinates env).1.lookup "error") = none)
    (hla : parseCoordField ((get_coordinates env).1.lookup "lat") = Except.ok la)
    (hlo : parseCoordField ((get_coordinates env).1.lookup "lon") = Except.ok lo)
    (hw : ((get_weather env).lookup "error") = none) :
    run q env hist =
      Except.ok ⟨hist ++ [mkRecord q (get_weather env) la lo (resolve_timezone env)],
        (get_coordinates env).2 ++ [ExtCall.weatherAPI, ExtCall.forecastAPI,
          ExtCall.timezoneAPI]⟩ := by
  simp [run, hq, he, hla, hlo, hw]

/-- C1: for every run of the pipeline (a non-empty question), a record is
appended to History if and only if both coordinate resolution and the
current-conditions fetch succeed; a forecast or timezone failure does not
prevent the append (neither appears on the right-hand side: the forecast
is simply omitted and the timezone defaults to "UTC"). -/
theorem history_append_iff (q : String) (env : Env) (hist : List HRecord)
    (hq : q ≠ "") :
    (∃ out r, run q env hist = Except.ok out ∧ out.newHistory = hist ++ [r]) ↔
      (coord_resolution_ok env ∧ weather_fetch_ok env) := by
  constructor
  · rintro ⟨out, r, hrun, happ⟩
    have he : ((get_coordinates env).1.lookup "error") = none := by
      by_cases h : ((get_coordinates env).1.lookup "error").isSome
      · exfalso
        have : run q env hist = Except.ok ⟨hist, (get_coordinates env).2⟩ := by
          simp [run, hq, h]
        rw [this] at hrun
        obtain rfl : out = ⟨hist, (get_coordinates env).2⟩ := by
          injection hrun with hrun; exact hrun.symm
        simp at happ
      · exact Option.not_isSome_iff_eq_none.mp h
    cases hla : parseCoordField ((get_coordinates env).1.lookup "lat") with
    | error e =>
      exfalso
      have : run q env hist = Except.error e := by simp [run, hq, he, hla]
      rw [this] at hrun
      cases hrun
    | ok la =>
      cases hlo : parseCoordField ((get_coordinates env).1.lookup "lon") with
      | error e =>
        exfalso
        have : run q env hist = Except.error e := by simp [run, hq, he, hla, hlo]
        rw [this] at hrun
        cases hrun
      | ok lo =>
        have hw : ((get_weather env).lookup "error") = none := by
          by_cases h : ((get_weather env).lookup "error").isSome
          · exfalso
            have : run q env hist =
                Except.ok ⟨hist, (get_coordinates env).2 ++ [ExtCall.weatherAPI]⟩ := by
              simp [run, hq, he, hla, hlo, h]
            rw [this] at hrun
            obtain rfl : out = ⟨hist, (get_coordinates env).2 ++ [ExtCall.weatherAPI]⟩ := by
              injection hrun with hrun; exact hrun.symm
            simp at happ
          · exact Option.not_isSome_iff_eq_none.mp h
        constructor
        · unfold coord_resolution_ok
          rw [he, hla, hlo]
          rfl
        · unfold weather_fetch_ok
          rw [hw]
          rfl
  · rintro ⟨hc, hwb⟩
    unfold coord_resolution_ok at hc
    rw [Bool.and_eq_true, Bool.and_eq_true] at hc
    obtain ⟨⟨hen, hlab⟩, hlob⟩ := hc
    have he : ((get_coordinates env).1.lookup "error") = none :=
      Option.isNone_iff_eq_none.mp hen
    obtain ⟨la, hla⟩ := except_match_true hlab
    obtain ⟨lo, hlo⟩ := except_match_true hlob
    have hw : ((get_weather env).lookup "error") = none := by
      unfold weather_fetch_ok at hwb
      exact Option.isNone_iff_eq_none.mp hwb
    exact ⟨_, _, run_append_eq q env hist la lo hq he hla hlo hw, rfl⟩

/-- Witness for C1 at the all-success environment: the forward direction
of the equivalence produces the appended record. -/
theorem history_append_iff_witness :
    ∃ out r, run "Weather in Paris?" envGood [] = Except.ok out ∧
      out.newHistory = [] ++ [r] :=
  (history_append_iff "Weather in Paris?" envGood [] (by decide)).mpr (by decide)

/-! ## C3: coordinate resolution and uncaught exceptions -/

/-- C3 counterexample: a coordinate LLM reply whose lat field is the
non-numeric string "abc" passes through `get_coordinates` without an
error key, and the run then raises an uncaught ValueError at the
unprotected `float(coord_data["lat"].strip('"'))` of line 273 -- it is
not converted into a CoordinateExtractionError failure. -/
theorem coord_parse_crash_counterexample :
    ((get_coordinates envBadLat).1.lookup "error") = none ∧
    run "Weather in Paris?" envBadLat [] = Except.error PyExn.valueError :=
  ⟨rfl, rfl⟩

/-- C3 amended: `get_coordinates` itself never raises -- an absent JSON
object in the location reply (and likewise every decode failure inside
it) is returned as an error dictionary -- but the conversion of the lat
and lon fields at lines 273-274 of `main` sits outside every handler, so
when the returned dictionary has no error key and a coordinate field is
missing, non-numeric or not a string, the run raises that exception
uncaught instead of producing a Failure. -/
theorem coord_failures_dict_but_float_unprotected :
    (∀ env : Env, reSearchBrace env.locationResponse.toList = none →
      (get_coordinates env).1 =
        [("error", PyVal.str "No JSON found in location response")]) ∧
    (∀ (env : Env) (q : String) (hist : List HRecord) (e : PyExn), q ≠ "" →
      ((get_coordinates env).1.lookup "error") = none →
      parseCoordField ((get_coordinates env).1.lookup "lat") = Except.error e →
      run q env hist = Except.error e) := by
  constructor
  · intro env h
    unfold get_coordinates extractLocationList
    rw [h]
  · intro env q hist e hq he hla
    simp [run, hq, he, hla]

/-- Witness for the amended C3: the no-JSON reply yields the error
dictionary, and the non-numeric lat field crashes the run. -/
theorem coord_failures_dict_but_float_unprotected_witness :
    (get_coordinates envNoJson).1 =
      [("error", PyVal.str "No JSON found in location response")] ∧
    run "Weather in Paris?" envBadLat [] = Except.error PyExn.valueError :=
  ⟨coord_failures_dict_but_float_unprotected.1 envNoJson rfl,
   coord_failures_dict_but_float_unprotected.2 envBadLat "Weather in Paris?" []
     PyExn.valueError (by decide) rfl rfl⟩

/-! ## C7: location extraction and surrounding prose -/

/-- Scanning skips every character before the first opening brace. -/
theorem reSearchBrace_skip (pre l : List Char) (h : '\x7b' ∉ pre) :
    reSearchBrace (pre ++ l) = reSearchBrace l := by
  induction pre with
  | nil => rfl
  | cons c cs ih =>
    have hc : ¬ (c = '\x7b') := fun heq => h (heq ▸ List.mem_cons_self c cs)
    simp only [List.cons_append, reSearchBrace, if_neg hc]
    exact ih (fun hm => h (List.mem_cons_of_mem c hm))

/-- When the line holds a single closing brace at a known position, the
greedy match ends exactly there. -/
theorem greedyToClose_exact (mid tpost : List Char)
    (hmid : ∀ c ∈ mid, c ≠ '\x7d') (htp : ∀ c ∈ tpost, c ≠ '\x7d') :
    greedyToClose (mid ++ '\x7d' :: tpost) = some (mid ++ ['\x7d']) := by
  unfold greedyToClose
  rw [List.reverse_append, List.reverse_cons, List.append_assoc,
    List.singleton_append]
  rw [List.dropWhile_append_of_pos (by
    intro a ha
    simp only [List.mem_reverse] at ha
    simp [htp a ha])]
  rw [List.dropWhile_cons_of_neg (by simp)]
  simp

/-- At an opening brace whose line holds exactly one closing brace, the
regex search returns the span between them inclusive. -/
theorem reSearchBrace_open (mid post : List Char)
    (hmid : ∀ c ∈ mid, c ≠ '\n' ∧ c ≠ '\x7d')
    (hpost : '\x7d' ∉ post.takeWhile (fun c => c ≠ '\n')) :
    reSearchBrace ('\x7b' :: (mid ++ '\x7d' :: post)) =
      some ('\x7b' :: (mid ++ ['\x7d'])) := by
  simp only [reSearchBrace, if_pos rfl]
  rw [List.takeWhile_append_of_pos (by
    intro a ha
    simp [(hmid a ha).1])]
  rw [List.takeWhile_cons_of_pos (by simp)]
  rw [greedyToClose_exact mid (post.takeWhile (fun c => c ≠ '\n'))
    (fun c hc => (hmid c hc).2)
    (fun c hc heq => hpost (heq ▸ hc))]
  simp

/-- A JSON string body free of quotes, backslashes and control characters
is decoded verbatim up to the closing quote. -/
theorem parseJString_closes (name rest : List Char)
    (h : ∀ c ∈ name, c ≠ '"' ∧ c ≠ '\\' ∧ 32 ≤ c.toNat) :
    parseJString (name ++ '"' :: rest) = some (name, rest) := by
  induction name with
  | nil =>
    rw [List.nil_append, parseJString.eq_def]
    simp
  | cons c cs ih =>
    obtain ⟨h1, h2, h3⟩ := h c (List.mem_cons_self c cs)
    have hge : ¬ (c.toNat < 32) := by omega
    rw [List.cons_append, parseJString.eq_def]
    simp only [if_neg h1, if_neg h2, if_neg hge]
    rw [ih (fun x hx => h x (List.mem_cons_of_mem c hx))]

/-- Dropping whitespace leaves a list headed by a non-whitespace
character unchanged. -/
theorem skipWs_cons (c : Char) (l : List Char) (h : isWs c = false) :
    skipWs (c :: l) = c :: l := by
  simp [skipWs, List.dropWhile_cons, h]

/-- The location-schema object decodes to the singleton dictionary, for
every field value free of quotes, backslashes and control characters. -/
theorem json_loads_location (name : List Char)
    (h : ∀ c ∈ name, c ≠ '"' ∧ c ≠ '\\' ∧ 32 ≤ c.toNat) :
    json_loads ('\x7b' :: ((['"', 'l', 'o', 'c', 'a', 't', 'i', 'o', 'n', '"',
        ':', ' ', '"'] ++ (name ++ ['"'])) ++ ['\x7d'])) =
      some [("location", PyVal.str ⟨name⟩)] := by
  have hkey : parseJString (['l', 'o', 'c', 'a', 't', 'i', 'o', 'n'] ++ '"' ::
      (':' :: ' ' :: '"' :: (name ++ ['"', '\x7d']))) =
      some (['l', 'o', 'c', 'a', 't', 'i', 'o', 'n'],
        ':' :: ' ' :: '"' :: (name ++ ['"', '\x7d'])) :=
    parseJString_closes _ _ (by decide)
  have hval : parseJString (name ++ '"' :: ['\x7d']) = some (name, ['\x7d']) :=
    parseJString_closes _ _ h
  simp only [List.cons_append, List.nil_append, List.append_assoc] at hkey ⊢
  simp [json_loads, parseObjSpan, parseMembers, parseJVal, skipWs,
    List.dropWhile_cons, isWs, hkey, hval]

/-- C7 counterexample: the claim quantifies over every response that
contains exactly one JSON object with a location field, regardless of
surrounding prose.  Here the prose itself contains a brace pair, the
greedy match spans from the prose's opening brace to the object's closing
brace, the decode of that span fails, and the step returns an error
instead of extracting "Paris" -- although the same object alone, and the
object's own span, decode fine (second and third conjuncts). -/
theorem location_prose_counterexample :
    extract_location "Here \x7byou go\x7d: \x7b\"location\": \"Paris\"\x7d" =
      Except.error "Failed to extract coordinates: JSONDecodeError" ∧
    json_loads "\x7b\"location\": \"Paris\"\x7d".toList =
      some [("location", PyVal.str "Paris")] ∧
    extract_location "\x7b\"location\": \"Paris\"\x7d" =
      Except.ok (PyVal.str "Paris") :=
  ⟨rfl, rfl, rfl⟩

/-- C7 amended: the location value is extracted verbatim for every
response in which the greedy brace span is exactly the JSON object: the
prose before the object contains no opening brace, the prose after it
contains no closing brace up to the next newline, and the value itself
contains no quote, backslash, closing brace or control character. -/
theorem location_extracted_verbatim (pre name post : List Char)
    (hpre : '\x7b' ∉ pre)
    (hname : ∀ c ∈ name, c ≠ '"' ∧ c ≠ '\\' ∧ c ≠ '\x7d' ∧ 32 ≤ c.toNat)
    (hpost : '\x7d' ∉ post.takeWhile (fun c => c ≠ '\n')) :
    extract_location (String.mk (pre ++ "\x7b\"location\": \"".toList ++ name ++
        "\"\x7d".toList ++ post)) =
      Except.ok (PyVal.str (String.mk name)) := by
  show extractLocationList (pre ++ "\x7b\"location\": \"".toList ++ name ++
      "\"\x7d".toList ++ post) = _
  have hshape : pre ++ "\x7b\"location\": \"".toList ++ name ++
      "\"\x7d".toList ++ post =
      pre ++ '\x7b' :: ((['"', 'l', 'o', 'c', 'a', 't', 'i', 'o', 'n', '"',
        ':', ' ', '"'] ++ (name ++ ['"'])) ++ '\x7d' :: post) := by
    rw [show "\x7b\"location\": \"".toList =
      '\x7b' :: ['"', 'l', 'o', 'c', 'a', 't', 'i', 'o', 'n', '"', ':', ' ', '"']
      from rfl]
    rw [show "\"\x7d".toList = ['"', '\x7d'] from rfl]
    simp [List.append_assoc, List.cons_append]
  rw [hshape]
  have hmid : ∀ c ∈ (['"', 'l', 'o', 'c', 'a', 't', 'i', 'o', 'n', '"',
      ':', ' ', '"'] ++ (name ++ ['"'])), c ≠ '\n' ∧ c ≠ '\x7d' := by
    intro c hc
    rcases List.mem_append.mp hc with h1 | h2
    · clear hc
      revert h1
      revert c
      decide
    · rcases List.mem_append.mp h2 with h3 | h4
      · obtain ⟨-, -, hb, hn⟩ := hname c h3
        refine ⟨?_, hb⟩
        intro heq
        subst heq
        exact absurd hn (by decide)
      · rw [List.mem_singleton] at h4
        subst h4
        decide
  unfold extractLocationList
  rw [reSearchBrace_skip pre _ hpre, reSearchBrace_open _ post hmid hpost]
  dsimp only
  rw [json_loads_location name
    (fun c hc => ⟨(hname c hc).1, (hname c hc).2.1, (hname c hc).2.2.2⟩)]
  rfl

/-- Witness for the amended C7: prose on both sides of the object, with
no brace characters in it. -/
theorem location_extracted_verbatim_witness :
    extract_location (String.mk ("Sure: ".toList ++ "\x7b\"location\": \"".toList ++
        "New York".toList ++ "\"\x7d".toList ++ " hope that helps.".toList)) =
      Except.ok (PyVal.str (String.mk "New York".toList)) :=
  location_extracted_verbatim "Sure: ".toList "New York".toList
    " hope that helps.".toList (by decide) (by decide) (by decide)
